import Mathlib

/-
Verification development for the aui-tts-piper repository.

The repository ships two Python modules:
  - src/aui_tts_piper.py: an asynchronous adapter class PiperTTS around the
    external Piper TTS engine, with operations preload, synth, say and stop,
    a blocking placeholder synthesis routine, an engine-availability probe
    and a best-effort module-load-time registration side effect.
  - src/aui_adapter_tts_piper.py: a trivial synchronous stub with say/stop.

The embedding below is a sequential shallow embedding: the async methods are
modelled as pure functions on an explicit adapter state, with the blocking
calls that the source offloads via asyncio.to_thread recorded as effects, and
exceptions modelled with Except.  External collaborators (importlib.util's
find_spec probe and the optional auicommon normalization hook) are supplied
through an explicit environment record.
-/

namespace AuiTtsPiper

/-- PCM audio value, embedding auicommon.audio.types.PcmAudio as used by the
adapter: raw sample bytes (each byte a Nat below 256; the adapter only ever
produces zero bytes), sample rate, channel count and sample width in bytes. -/
structure PcmAudio where
  data : List Nat
  rate : Nat
  channels : Nat
  width : Nat
deriving DecidableEq, Repr

/-- Opaque cancellation token; the source only ever threads it through and (in
commented-out pseudo-code) would consult an is_cancelled field. -/
structure CancellationToken where
  isCancelled : Bool
deriving DecidableEq, Repr

/-- Errors raised by the adapter: the RuntimeError raised by _require_piper
when the engine package is not installed, carrying its message. -/
inductive TtsErr where
  | engineNotInstalled (msg : String)
deriving DecidableEq, Repr

/-- The three candidate package names probed by _require_piper.  The source
filters them with a vacuous isinstance(n, str) guard; all three are string
literals, so the guard removes nothing and is not modelled. -/
def piperCandidates : List String := ["piper", "piper_tts", "piper-tts"]

/-- The exact message of the RuntimeError raised by _require_piper (the three
adjacent Python string literals concatenated). -/
def piperInstallMsg : String :=
  "Piper-TTS ist nicht installiert. Bitte separat installieren, z. B.:\n  pip install piper-tts\nAchtung: Piper steht unter GPLv3; die Nutzung kann GPL-Pflichten auslösen."

/-- Environment of external collaborators: findSpec models the truthiness of
the importlib.util.find_spec probe for a package name; normalize models the module-level
normalize_to_canon binding, which is None when the optional import of
auicommon.audio.convert failed, and otherwise a function that either returns a
normalized PcmAudio or raises (modelled as returning none). -/
structure Env where
  findSpec : String → Bool
  normalize : Option (PcmAudio → Option PcmAudio)

/-- The availability condition tested by _require_piper:
any(importlib.util.find_spec(n) for n in candidates). -/
def piperAvailable (env : Env) : Bool :=
  piperCandidates.any env.findSpec

/-- _require_piper: raises RuntimeError with the remediation message when none
of the candidate package names is present. -/
def requirePiper (env : Env) : Except TtsErr Unit :=
  if piperAvailable env then Except.ok ()
  else Except.error (TtsErr.engineNotInstalled piperInstallMsg)

/-- Adapter instance state of the PiperTTS class, with the constructor's
default field values: model/voice None, sample_rate 22050, engine None,
stop flag cleared, empty extra kwargs. -/
structure PiperTTS where
  model : Option String := none
  voice : Option String := none
  rate : Nat := 22050
  engine : Option Unit := none
  stopped : Bool := false
  kw : List (String × String) := []
deriving DecidableEq, Repr

/-- Background (asyncio.to_thread) calls made by the adapter, plus the play
primitive that the adapter by contract never invokes. -/
inductive Effect where
  | toThreadInit
  | toThreadSynth (text : String) (cancel : Option CancellationToken)
  | play (pcm : PcmAudio)
deriving DecidableEq, Repr

/-- Whether an effect is an invocation of the playback primitive. -/
def Effect.isPlay : Effect → Bool
  | Effect.play _ => true
  | _ => false

/-- Result of one adapter operation: the adapter state after the call (equal
to the input state when an exception left it untouched), the returned value or
the raised error, and the background calls that were scheduled. -/
structure Outcome (α : Type) where
  state : PiperTTS
  result : Except TtsErr α
  effects : List Effect
deriving Repr

/-- _synth_blocking: if the stop flag is set, return an empty PcmAudio at the
configured rate, mono, 16-bit; otherwise return the placeholder silence of
n_samples = int(rate * 0.1) sample pairs b"\x00\x00".  The Python float
expression int(rate * 0.1) is embedded as the Nat floor division rate / 10,
its exact value for every representable sample rate. -/
def PiperTTS.synthBlocking (s : PiperTTS) (text : String)
    (cancel : Option CancellationToken) : PcmAudio :=
  if s.stopped then
    { data := [], rate := s.rate, channels := 1, width := 2 }
  else
    let nSamples := s.rate / 10
    let silence := (List.replicate nSamples ([0, 0] : List Nat)).flatten
    { data := silence, rate := s.rate, channels := 1, width := 2 }

/-- _init_blocking: a pass statement; the real engine initialization is only
pseudo-code, so the state (in particular the engine handle) is unchanged. -/
def PiperTTS.initBlocking (s : PiperTTS) : PiperTTS := s

/-- The normalization step at the end of synth: when normalize_to_canon is
bound, try to return its result, swallowing any exception and falling back to
the un-normalized value; when it is None, return the value unchanged. -/
def applyNormalize (env : Env) (pcm : PcmAudio) : PcmAudio :=
  match env.normalize with
  | none => pcm
  | some f =>
    match f pcm with
    | some q => q
    | none => pcm

/-- synth: check availability (raising before any background call), clear the
stop flag, run _synth_blocking in a background thread, then apply the
normalization step to its result. -/
def PiperTTS.synth (env : Env) (s : PiperTTS) (text : String)
    (cancel : Option CancellationToken) : Outcome PcmAudio :=
  match requirePiper env with
  | Except.error e => { state := s, result := Except.error e, effects := [] }
  | Except.ok _ =>
    let s1 : PiperTTS := { s with stopped := false }
    let pcm := s1.synthBlocking text cancel
    { state := s1
      result := Except.ok (applyNormalize env pcm)
      effects := [Effect.toThreadSynth text cancel] }

/-- preload: check availability (raising before any background call), then run
_init_blocking in a background thread. -/
def PiperTTS.preload (env : Env) (s : PiperTTS) : Outcome Unit :=
  match requirePiper env with
  | Except.error e => { state := s, result := Except.error e, effects := [] }
  | Except.ok _ =>
    { state := s.initBlocking, result := Except.ok (), effects := [Effect.toThreadInit] }

/-- say: call synth with the same text and cancellation token, discard the
resulting PcmAudio and return None; no playback happens here. -/
def PiperTTS.say (env : Env) (s : PiperTTS) (text : String)
    (cancel : Option CancellationToken) : Outcome (Option PcmAudio) :=
  let o := PiperTTS.synth env s text cancel
  { state := o.state
    result := o.result.map (fun _ => (none : Option PcmAudio))
    effects := o.effects }

/-- stop: set the stop flag; the native engine stop call is only a comment in
the source. -/
def PiperTTS.stop (s : PiperTTS) : PiperTTS :=
  { s with stopped := true }

/-- Modelled from the spec: the optional external normalization hook
auicommon.audio.convert.normalize_to_canon (its code is not part of this
repository) converts PCM to the canonical format, described as fixed sample
rate, mono, 16-bit little-endian.  An environment satisfies this contract when
every successful normalization yields sample width 2 and channel count 1. -/
def NormCanonical (env : Env) : Prop :=
  ∀ f p q, env.normalize = some f → f p = some q → q.width = 2 ∧ q.channels = 1

/-- Action recorded by the module-load-time registration side effect: either a
factory.register call or an assignment into the factory REGISTRY mapping. -/
inductive RegAction where
  | registered (key : String)
  | mapped (key : String)
deriving DecidableEq, Repr

/-- Exceptions that can arise inside the registration try block: the import of
auicore.services.tts.factory failing, or the register call / mapping
assignment itself raising. -/
inductive RegErr where
  | importFailed
  | callFailed
deriving DecidableEq, Repr

/-- Module state produced by importing the adapter module: the value bound to
normalize_to_canon, and the registration action that took place, if any. -/
structure ModuleState where
  normalize : Option (PcmAudio → Option PcmAudio)
  regAction : Option RegAction

/-- Environment for module import: whether the optional auicommon convert
binding yields a hook (none when that guarded module load fails), whether the
auicore factory module is importable, which attributes it has, and whether the
register call or the mapping assignment raises. -/
structure ImportEnv where
  convert : Option (PcmAudio → Option PcmAudio)
  factoryPresent : Bool
  factoryHasRegister : Bool
  factoryHasRegistry : Bool
  registerRaises : Bool
  assignRaises : Bool

/-- The body of the registration try block: import the factory module, then
prefer factory.register, falling back to the factory.REGISTRY mapping; any
step may raise. -/
def registrationAttempt (e : ImportEnv) : Except RegErr (Option RegAction) :=
  if e.factoryPresent = false then Except.error RegErr.importFailed
  else if e.factoryHasRegister then
    if e.registerRaises then Except.error RegErr.callFailed
    else Except.ok (some (RegAction.registered ("piper")))
  else if e.factoryHasRegistry then
    if e.assignRaises then Except.error RegErr.callFailed
    else Except.ok (some (RegAction.mapped ("piper")))
  else Except.ok none

/-- Importing the adapter module: bind normalize_to_canon from the guarded
optional import, then run the registration attempt inside try/except so that
any exception is caught and suppressed. -/
def moduleImport (e : ImportEnv) : Except RegErr ModuleState :=
  let norm := e.convert
  match registrationAttempt e with
  | Except.ok a => Except.ok { normalize := norm, regAction := a }
  | Except.error _ => Except.ok { normalize := norm, regAction := none }

end AuiTtsPiper

namespace AuiAdapterTtsPiper

/-- State of the synchronous stub class PiperTTS in aui_adapter_tts_piper.py:
a single speaking flag, initially false. -/
structure PiperTTS where
  speaking : Bool := false
deriving DecidableEq, Repr

/-- Stub say: set the speaking flag and print a status line containing the
text; the Python method returns None, so the Lean value is only the new state
and the emitted lines. -/
def PiperTTS.say (s : PiperTTS) (text : String) : PiperTTS × List String :=
  ({ speaking := true }, ["[Piper] say: " ++ text])

/-- Stub stop: print a status line when currently speaking, and always clear
the speaking flag. -/
def PiperTTS.stop (s : PiperTTS) : PiperTTS × List String :=
  ({ speaking := false }, if s.speaking then ["[Piper] stop"] else [])

end AuiAdapterTtsPiper

/-- Flattening n copies of the two-byte block [0, 0] yields 2 * n zero bytes. -/
theorem flatten_replicate_pair (n : Nat) :
    (List.replicate n ([0, 0] : List Nat)).flatten = List.replicate (2 * n) (0 : Nat) := by
  induction n with
  | zero => rfl
  | succ k ih =>
      rw [List.replicate_succ, List.flatten_cons, ih,
        show 2 * (k + 1) = 2 + 2 * k by ring, List.replicate_add]
      rfl

/-- Claim C1: if the adapter's stop flag is set at the moment the background
synthesis routine _synth_blocking runs, it returns a PCM value with a
zero-length byte payload, the configured sample rate, channel count 1 and
sample width 2, performing no synthesis. -/
theorem synthBlocking_stopped_empty (s : AuiTtsPiper.PiperTTS) (t : String)
    (c : Option AuiTtsPiper.CancellationToken) (h : s.stopped = true) :
    AuiTtsPiper.PiperTTS.synthBlocking s t c =
      { data := [], rate := s.rate, channels := 1, width := 2 } ∧
    (AuiTtsPiper.PiperTTS.synthBlocking s t c).data.length = 0 := by
  constructor <;> simp [AuiTtsPiper.PiperTTS.synthBlocking, h]

/-- Witness for C1 at a concrete stopped adapter state. -/
theorem synthBlocking_stopped_empty_witness :
    (({ stopped := true } : AuiTtsPiper.PiperTTS).stopped = true) ∧
    AuiTtsPiper.PiperTTS.synthBlocking { stopped := true } ("x") none =
      { data := [], rate := 22050, channels := 1, width := 2 } :=
  ⟨rfl, (synthBlocking_stopped_empty { stopped := true } ("x") none rfl).1⟩

/-- Claim C2: after the availability check succeeds, synth sets the stop flag
to False before the background routine runs, so calling stop and then synth
behaves exactly like synth alone, the post-state has a cleared flag, and the
blocking routine is evaluated at a state whose stop flag is false. -/
theorem synth_clears_stopped (env : AuiTtsPiper.Env) (s : AuiTtsPiper.PiperTTS)
    (t : String) (c : Option AuiTtsPiper.CancellationToken)
    (h : AuiTtsPiper.piperAvailable env = true) :
    AuiTtsPiper.PiperTTS.synth env (AuiTtsPiper.PiperTTS.stop s) t c =
      AuiTtsPiper.PiperTTS.synth env s t c ∧
    (AuiTtsPiper.PiperTTS.synth env s t c).state = { s with stopped := false } ∧
    (AuiTtsPiper.PiperTTS.synth env s t c).result =
      Except.ok (AuiTtsPiper.applyNormalize env
        (AuiTtsPiper.PiperTTS.synthBlocking { s with stopped := false } t c)) := by
  have hreq : AuiTtsPiper.requirePiper env = Except.ok () := by
    simp [AuiTtsPiper.requirePiper, h]
  refine ⟨?_, ?_, ?_⟩ <;>
    simp [AuiTtsPiper.PiperTTS.synth, AuiTtsPiper.PiperTTS.stop, hreq]

/-- Witness for C2 at a concrete available environment and the default adapter
state. -/
theorem synth_clears_stopped_witness :
    (AuiTtsPiper.piperAvailable { findSpec := fun _ => true, normalize := none } = true) ∧
    AuiTtsPiper.PiperTTS.synth { findSpec := fun _ => true, normalize := none }
        (AuiTtsPiper.PiperTTS.stop {}) ("hi") none =
      AuiTtsPiper.PiperTTS.synth { findSpec := fun _ => true, normalize := none } {} ("hi") none :=
  ⟨rfl, (synth_clears_stopped { findSpec := fun _ => true, normalize := none } {} ("hi") none rfl).1⟩

/-- Claim C3: when the availability probe finds none of the three candidate
package names, preload and synth both fail with the same descriptive
engine-not-installed error, whose message names the install step and a
licensing caveat, and no background call is scheduled. -/
theorem engine_missing_error (env : AuiTtsPiper.Env) (s : AuiTtsPiper.PiperTTS)
    (t : String) (c : Option AuiTtsPiper.CancellationToken)
    (h : ∀ n ∈ AuiTtsPiper.piperCandidates, env.findSpec n = false) :
    (AuiTtsPiper.PiperTTS.preload env s).result =
      Except.error (AuiTtsPiper.TtsErr.engineNotInstalled AuiTtsPiper.piperInstallMsg) ∧
    (AuiTtsPiper.PiperTTS.synth env s t c).result =
      Except.error (AuiTtsPiper.TtsErr.engineNotInstalled AuiTtsPiper.piperInstallMsg) ∧
    (AuiTtsPiper.PiperTTS.preload env s).effects = [] ∧
    (AuiTtsPiper.PiperTTS.synth env s t c).effects = [] ∧
    (∃ a b, AuiTtsPiper.piperInstallMsg = a ++ "pip install piper-tts" ++ b) ∧
    (∃ a b, AuiTtsPiper.piperInstallMsg = a ++ "GPL" ++ b) := by
  have h1 := h ("piper") (by simp [AuiTtsPiper.piperCandidates])
  have h2 := h ("piper_tts") (by simp [AuiTtsPiper.piperCandidates])
  have h3 := h ("piper-tts") (by simp [AuiTtsPiper.piperCandidates])
  have hav : AuiTtsPiper.piperAvailable env = false := by
    simp [AuiTtsPiper.piperAvailable, AuiTtsPiper.piperCandidates, h1, h2, h3]
  have hreq : AuiTtsPiper.requirePiper env =
      Except.error (AuiTtsPiper.TtsErr.engineNotInstalled AuiTtsPiper.piperInstallMsg) := by
    simp [AuiTtsPiper.requirePiper, hav]
  refine ⟨?_, ?_, ?_, ?_, ?_, ?_⟩
  · simp [AuiTtsPiper.PiperTTS.preload, hreq]
  · simp [AuiTtsPiper.PiperTTS.synth, hreq]
  · simp [AuiTtsPiper.PiperTTS.preload, hreq]
  · simp [AuiTtsPiper.PiperTTS.synth, hreq]
  · exact ⟨"Piper-TTS ist nicht installiert. Bitte separat installieren, z. B.:\n  ",
      "\nAchtung: Piper steht unter GPLv3; die Nutzung kann GPL-Pflichten auslösen.", rfl⟩
  · exact ⟨"Piper-TTS ist nicht installiert. Bitte separat installieren, z. B.:\n  pip install piper-tts\nAchtung: Piper steht unter ",
      "v3; die Nutzung kann GPL-Pflichten auslösen.", rfl⟩

/-- Witness for C3 at a concrete environment in which no candidate package is
found. -/
theorem engine_missing_error_witness :
    (AuiTtsPiper.PiperTTS.synth { findSpec := fun _ => false, normalize := none } {} ("hi") none).result =
      Except.error (AuiTtsPiper.TtsErr.engineNotInstalled AuiTtsPiper.piperInstallMsg) ∧
    (AuiTtsPiper.PiperTTS.preload { findSpec := fun _ => false, normalize := none } {}).result =
      Except.error (AuiTtsPiper.TtsErr.engineNotInstalled AuiTtsPiper.piperInstallMsg) :=
  ⟨(engine_missing_error { findSpec := fun _ => false, normalize := none } {} ("hi") none
      (fun n _ => rfl)).2.1,
   (engine_missing_error { findSpec := fun _ => false, normalize := none } {} ("hi") none
      (fun n _ => rfl)).1⟩

/-- Claim C4: when the stop flag is not set as the placeholder background
routine runs, it returns 0.1 seconds of mono 16-bit silence: all bytes zero,
payload length (rate / 10) * 2 bytes, in particular 4410 bytes at the default
rate 22050 (int(rate * 0.1) embedded as the Nat division rate / 10). -/
theorem synthBlocking_not_stopped_silence (s : AuiTtsPiper.PiperTTS) (t : String)
    (c : Option AuiTtsPiper.CancellationToken) (h : s.stopped = false) :
    AuiTtsPiper.PiperTTS.synthBlocking s t c =
      { data := List.replicate (2 * (s.rate / 10)) 0, rate := s.rate,
        channels := 1, width := 2 } ∧
    (AuiTtsPiper.PiperTTS.synthBlocking s t c).data.length = s.rate / 10 * 2 ∧
    (s.rate = 22050 → (AuiTtsPiper.PiperTTS.synthBlocking s t c).data.length = 4410) := by
  have hb : AuiTtsPiper.PiperTTS.synthBlocking s t c =
      { data := List.replicate (2 * (s.rate / 10)) 0, rate := s.rate,
        channels := 1, width := 2 } := by
    simp [AuiTtsPiper.PiperTTS.synthBlocking, h, flatten_replicate_pair]
  refine ⟨hb, ?_, ?_⟩
  · rw [hb]
    simp
    omega
  · intro hr
    rw [hb]
    simp only [List.length_replicate, hr]

/-- Witness for C4 at the default adapter state, whose rate is 22050. -/
theorem synthBlocking_not_stopped_silence_witness :
    (({} : AuiTtsPiper.PiperTTS).stopped = false) ∧
    (AuiTtsPiper.PiperTTS.synthBlocking {} ("hello") none).data.length = 4410 :=
  ⟨rfl, (synthBlocking_not_stopped_silence {} ("hello") none rfl).2.2 rfl⟩

/-- Claim C5: for all text inputs, when the availability check passes and the
normalization hook satisfies its canonical-format contract, synth returns a
present PCM value with sample width 2 and channel count 1 on both the stopped
and non-stopped branches, whether or not normalization runs. -/
theorem synth_canonical_pcm (env : AuiTtsPiper.Env) (s : AuiTtsPiper.PiperTTS)
    (t : String) (c : Option AuiTtsPiper.CancellationToken)
    (hav : AuiTtsPiper.piperAvailable env = true)
    (hc : AuiTtsPiper.NormCanonical env) :
    ∃ pcm, (AuiTtsPiper.PiperTTS.synth env s t c).result = Except.ok pcm ∧
      pcm.width = 2 ∧ pcm.channels = 1 := by
  have hreq : AuiTtsPiper.requirePiper env = Except.ok () := by
    simp [AuiTtsPiper.requirePiper, hav]
  have hres : (AuiTtsPiper.PiperTTS.synth env s t c).result =
      Except.ok (AuiTtsPiper.applyNormalize env
        (AuiTtsPiper.PiperTTS.synthBlocking { s with stopped := false } t c)) := by
    simp [AuiTtsPiper.PiperTTS.synth, hreq]
  refine ⟨_, hres, ?_⟩
  set p := AuiTtsPiper.PiperTTS.synthBlocking { s with stopped := false } t c with hp
  have hbase : p.width = 2 ∧ p.channels = 1 := by
    rw [hp]
    by_cases hst : ({ s with stopped := false } : AuiTtsPiper.PiperTTS).stopped <;>
      simp [AuiTtsPiper.PiperTTS.synthBlocking, hst]
  rcases hnorm : env.normalize with _ | f
  · simpa [AuiTtsPiper.applyNormalize, hnorm] using hbase
  · rcases hq : f p with _ | q
    · simpa [AuiTtsPiper.applyNormalize, hnorm, hq] using hbase
    · simpa [AuiTtsPiper.applyNormalize, hnorm, hq] using hc f p q hnorm hq

/-- Witness for C5 at a concrete available environment without a normalization
hook. -/
theorem synth_canonical_pcm_witness :
    ((AuiTtsPiper.PiperTTS.synth { findSpec := fun _ => true, normalize := none }
        {} ("hi") none).result.isOk = true) := by
  obtain ⟨pcm, h1, _, _⟩ :=
    synth_canonical_pcm { findSpec := fun _ => true, normalize := none } {} ("hi") none
      rfl (fun f p q hf _ => Option.noConfusion hf)
  rw [h1]
  rfl

/-- Claim C6: when the normalization hook is present and raises on the
synthesized PCM value, synth suppresses the exception and returns the original
un-normalized PCM value; the failure is never propagated. -/
theorem synth_normalize_failure_fallback (env : AuiTtsPiper.Env)
    (s : AuiTtsPiper.PiperTTS) (t : String) (c : Option AuiTtsPiper.CancellationToken)
    (f : AuiTtsPiper.PcmAudio → Option AuiTtsPiper.PcmAudio)
    (hav : AuiTtsPiper.piperAvailable env = true)
    (hf : env.normalize = some f)
    (hraise : f (AuiTtsPiper.PiperTTS.synthBlocking { s with stopped := false } t c) = none) :
    (AuiTtsPiper.PiperTTS.synth env s t c).result =
      Except.ok (AuiTtsPiper.PiperTTS.synthBlocking { s with stopped := false } t c) := by
  have hreq : AuiTtsPiper.requirePiper env = Except.ok () := by
    simp [AuiTtsPiper.requirePiper, hav]
  simp [AuiTtsPiper.PiperTTS.synth, hreq, AuiTtsPiper.applyNormalize, hf, hraise]

/-- Witness for C6 at a concrete environment whose normalization hook raises
on every input. -/
theorem synth_normalize_failure_fallback_witness :
    (AuiTtsPiper.PiperTTS.synth
        { findSpec := fun _ => true, normalize := some (fun _ => none) }
        { rate := 10 } ("hi") none).result =
      Except.ok (AuiTtsPiper.PiperTTS.synthBlocking { rate := 10, stopped := false } ("hi") none) :=
  synth_normalize_failure_fallback
    { findSpec := fun _ => true, normalize := some (fun _ => none) }
    { rate := 10 } ("hi") none (fun _ => none) rfl rfl rfl

/-- Claim C7: say calls synth with the same text and cancellation token (its
post-state and scheduled background calls are exactly those of that synth
call), discards the resulting PCM value and returns None, and its effects
contain no invocation of the playback primitive. -/
theorem say_discards_and_never_plays (env : AuiTtsPiper.Env)
    (s : AuiTtsPiper.PiperTTS) (t : String) (c : Option AuiTtsPiper.CancellationToken) :
    (AuiTtsPiper.PiperTTS.say env s t c).result =
      (AuiTtsPiper.PiperTTS.synth env s t c).result.map
        (fun _ => (none : Option AuiTtsPiper.PcmAudio)) ∧
    (AuiTtsPiper.PiperTTS.say env s t c).state =
      (AuiTtsPiper.PiperTTS.synth env s t c).state ∧
    (AuiTtsPiper.PiperTTS.say env s t c).effects =
      (AuiTtsPiper.PiperTTS.synth env s t c).effects ∧
    ((AuiTtsPiper.PiperTTS.say env s t c).effects.all
      (fun e => ! e.isPlay)) = true := by
  refine ⟨rfl, rfl, rfl, ?_⟩
  cases hreq : AuiTtsPiper.requirePiper env <;>
    simp [AuiTtsPiper.PiperTTS.say, AuiTtsPiper.PiperTTS.synth, hreq,
      AuiTtsPiper.Effect.isPlay]

/-- Claim C8: importing the adapter module never raises, whatever the shape or
absence of the optional registry collaborator and however the registration
attempt fails: the try/except around the best-effort self-registration under
the key piper catches every exception, and the normalize_to_canon binding from
the guarded optional import is kept. -/
theorem module_import_never_raises (e : AuiTtsPiper.ImportEnv) :
    ∃ st, AuiTtsPiper.moduleImport e = Except.ok st ∧
      st.normalize = e.convert := by
  cases hreg : AuiTtsPiper.registrationAttempt e with
  | error err =>
      refine ⟨{ normalize := e.convert, regAction := none }, ?_, rfl⟩
      simp [AuiTtsPiper.moduleImport, hreg]
  | ok a =>
      refine ⟨{ normalize := e.convert, regAction := a }, ?_, rfl⟩
      simp [AuiTtsPiper.moduleImport, hreg]

/-- Claim C9: for the synchronous stub, say sets the speaking flag and emits a
notification containing the text while returning no value, and stop emits a
notification exactly when the speaking flag is currently set and always clears
the flag. -/
theorem stub_say_stop_spec (s : AuiAdapterTtsPiper.PiperTTS) (text : String) :
    (AuiAdapterTtsPiper.PiperTTS.say s text).1.speaking = true ∧
    (AuiAdapterTtsPiper.PiperTTS.say s text).2 = ["[Piper] say: " ++ text] ∧
    (AuiAdapterTtsPiper.PiperTTS.stop s).1.speaking = false ∧
    (AuiAdapterTtsPiper.PiperTTS.stop s).2 =
      (if s.speaking then ["[Piper] stop"] else []) :=
  ⟨rfl, rfl, rfl, rfl⟩

/-- Claim C10: when the availability check fails, preload and synth raise the
engine-not-installed error and leave the adapter state completely unchanged:
the stop flag, the engine handle and every configuration field keep their
values, since the check runs before any state mutation. -/
theorem engine_missing_preserves_state (env : AuiTtsPiper.Env)
    (s : AuiTtsPiper.PiperTTS) (t : String) (c : Option AuiTtsPiper.CancellationToken)
    (h : AuiTtsPiper.piperAvailable env = false) :
    (AuiTtsPiper.PiperTTS.preload env s).state = s ∧
    (AuiTtsPiper.PiperTTS.synth env s t c).state = s ∧
    (AuiTtsPiper.PiperTTS.preload env s).result =
      Except.error (AuiTtsPiper.TtsErr.engineNotInstalled AuiTtsPiper.piperInstallMsg) ∧
    (AuiTtsPiper.PiperTTS.synth env s t c).result =
      Except.error (AuiTtsPiper.TtsErr.engineNotInstalled AuiTtsPiper.piperInstallMsg) := by
  have hreq : AuiTtsPiper.requirePiper env =
      Except.error (AuiTtsPiper.TtsErr.engineNotInstalled AuiTtsPiper.piperInstallMsg) := by
    simp [AuiTtsPiper.requirePiper, h]
  refine ⟨?_, ?_, ?_, ?_⟩ <;>
    simp [AuiTtsPiper.PiperTTS.preload, AuiTtsPiper.PiperTTS.synth, hreq]

/-- Witness for C10 at a concrete unavailable environment and an adapter state
with a set stop flag, which the failed calls leave untouched. -/
theorem engine_missing_preserves_state_witness :
    (AuiTtsPiper.piperAvailable { findSpec := fun _ => false, normalize := none } = false) ∧
    (AuiTtsPiper.PiperTTS.synth { findSpec := fun _ => false, normalize := none }
        { stopped := true } ("x") none).state = ({ stopped := true } : AuiTtsPiper.PiperTTS) ∧
    (AuiTtsPiper.PiperTTS.preload { findSpec := fun _ => false, normalize := none }
        { stopped := true }).state = ({ stopped := true } : AuiTtsPiper.PiperTTS) :=
  ⟨rfl,
   (engine_missing_preserves_state { findSpec := fun _ => false, normalize := none }
      { stopped := true } ("x") none rfl).2.1,
   (engine_missing_preserves_state { findSpec := fun _ => false, normalize := none }
      { stopped := true } ("x") none rfl).1⟩
